import Mathlib

/-!
Verification development for the `nosy` fetch → classify → extract pipeline.

The definitions below are a shallow embedding of the Rust sources:
  * `src/scheme.rs`        — input-scheme detection,
  * `src/file_type.rs`     — extension derivation and bounded MIME sniffing,
  * `src/extractor.rs`     — the extractor kinds and the static lookup tables,
  * `src/extractor/*.rs`   — the four real extractor backends,
  * `src/validate.rs`      — command/model-path validation,
  * `src/main.rs`          — the orchestrator steps (fetch, classify, extract).

External collaborators (the MIME sniffer, the readability parser, the pdf
text extractor, the pandoc subprocess, the rodio decoder, whisper inference,
the filesystem and the environment) are modelled as explicit parameters, so
every stage becomes a pure total function of its inputs plus the
collaborators' answers.  Where a stage performs an observable side effect
that a claim talks about (opening the input file, creating the working
directory, spawning a subprocess, starting audio decoding) the function
additionally returns a `Bool` flag recording whether that effect happened.
-/

namespace Nosy

/-! ## Basic string helpers shared by the embedding -/

/-- ASCII lowercase of a single character, as Rust's
`char::to_ascii_lowercase`: only `'A'..='Z'` are mapped, every other
character is unchanged. -/
def to_ascii_lowercase_char (c : Char) : Char :=
  if 'A' ≤ c ∧ c ≤ 'Z' then Char.ofNat (c.toNat + 32) else c

/-- ASCII lowercase of a string, as Rust's `str::to_ascii_lowercase`:
the character-wise map over the string's characters. -/
def to_ascii_lowercase (s : String) : String :=
  String.mk (s.data.map to_ascii_lowercase_char)

/-- Split a character list at the first occurrence of `sep`, returning the
parts before and after it, or `none` when `sep` does not occur.  This is
Rust's `str::split_once` on the underlying character sequence. -/
def splitOnceChars (sep : List Char) : List Char → Option (List Char × List Char)
  | [] => if sep.isEmpty then some ([], []) else none
  | c :: cs =>
    if sep.isPrefixOf (c :: cs) then some ([], (c :: cs).drop sep.length)
    else
      match splitOnceChars sep cs with
      | some (l, r) => some (c :: l, r)
      | none => none

/-- Rust's `str::split_once` lifted to `String`. -/
def split_once (s : String) (sep : String) : Option (String × String) :=
  match splitOnceChars sep.data s.data with
  | some (l, r) => some (String.mk l, String.mk r)
  | none => none

/-- Split a character list at every occurrence of the separator character,
as Rust's `str::split` with a single-character pattern (also the behaviour
of splitting a path on `/` or a file name on the dot). -/
def split_on_char (sep : Char) : List Char → List (List Char)
  | [] => [[]]
  | c :: cs =>
    if c = sep then [] :: split_on_char sep cs
    else
      match split_on_char sep cs with
      | [] => [[c]]
      | l :: ls => (c :: l) :: ls

/-- Unicode `White_Space` test, as Rust's `char::is_whitespace`
(the property used by Rust's `str::trim`). -/
def rust_is_whitespace (c : Char) : Bool :=
  let n := c.toNat
  (9 ≤ n && n ≤ 13) || n = 32 || n = 133 || n = 160 || n = 5760 ||
    (8192 ≤ n && n ≤ 8202) || n = 8232 || n = 8233 || n = 8239 ||
    n = 8287 || n = 12288

/-- Strip leading and trailing whitespace from a character list. -/
def trim_chars (l : List Char) : List Char :=
  ((l.dropWhile rust_is_whitespace).reverse.dropWhile rust_is_whitespace).reverse

/-- Rust's `str::trim`: drop leading and trailing Unicode whitespace. -/
def rust_trim (s : String) : String :=
  String.mk (trim_chars s.data)

/-! ## `src/scheme.rs` — input-scheme detection -/

/-- Scheme of input (`InputScheme` in `src/scheme.rs`). -/
inductive InputScheme
  | Http
  | File
  | Unsupported
  deriving DecidableEq, Repr

/-- `scheme::detect` from `src/scheme.rs`: split the input on the first
`"://"`; lowercase the scheme part and match it, defaulting to `File` when
no `"://"` occurs. -/
def detect (input : String) : InputScheme :=
  match split_once input "://" with
  | some (scheme, _) =>
    match to_ascii_lowercase scheme with
    | "http" => InputScheme.Http
    | "https" => InputScheme.Http
    | "file" => InputScheme.File
    | _ => InputScheme.Unsupported
  | none => InputScheme.File

/-- The scheme-detection algorithm exactly as §4.1 of the specification
words it: "if the string contains `://`, split on the first occurrence;
lower-case the left part and match: `http`/`https` → Http; `file` → File;
anything else → Unsupported. If no `://` is present, the whole string is
treated as a local path → File." -/
def detect_spec (input : String) : InputScheme :=
  match split_once input "://" with
  | none => InputScheme.File
  | some (left, _) =>
    let l := to_ascii_lowercase left
    if l = "http" ∨ l = "https" then InputScheme.Http
    else if l = "file" then InputScheme.File
    else InputScheme.Unsupported

/-! ## `src/extractor.rs` — extractor kinds and the static lookup tables -/

/-- Kind of extractor (`Kind` in `src/extractor.rs`). -/
inductive Kind
  | PlainText
  | HtmlNative
  | PdfNative
  | Pandoc
  | Whisper
  | Unsupported
  deriving DecidableEq, Repr

/-- Representation of a MIME type (`Mime` in `src/file_type.rs`). -/
structure Mime where
  val : String
  deriving DecidableEq, Repr

/-- `Mime::as_str`. -/
def Mime.as_str (m : Mime) : String := m.val

/-- Representation of a file extension (`Extension` in `src/file_type.rs`). -/
structure Extension where
  val : String
  deriving DecidableEq, Repr

/-- `Extension::as_str`. -/
def Extension.as_str (e : Extension) : String := e.val

/-- The `MIME_INDEX` table produced by the `define_indices!` declaration in
`src/extractor.rs`: the MIME string → kind associations, in source order. -/
def MIME_INDEX : List (String × Kind) :=
  [("text/html", Kind.HtmlNative),
   ("application/xhtml+xml", Kind.HtmlNative),
   ("application/pdf", Kind.PdfNative),
   ("text/plain", Kind.PlainText),
   ("text/markdown", Kind.PlainText),
   ("application/vnd.openxmlformats-officedocument.wordprocessingml.document", Kind.Pandoc),
   ("application/msword", Kind.Pandoc),
   ("application/vnd.oasis.opendocument.text", Kind.Pandoc),
   ("application/rtf", Kind.Pandoc),
   ("text/rtf", Kind.Pandoc),
   ("application/epub+zip", Kind.Pandoc),
   ("text/latex", Kind.Pandoc),
   ("application/x-tex", Kind.Pandoc),
   ("text/x-tex", Kind.Pandoc),
   ("audio/mpeg", Kind.Whisper),
   ("audio/mp3", Kind.Whisper),
   ("audio/x-mp3", Kind.Whisper),
   ("audio/wav", Kind.Whisper),
   ("audio/x-wav", Kind.Whisper),
   ("audio/mp4", Kind.Whisper),
   ("video/mp4", Kind.Whisper)]

/-- The `EXT_INDEX` table produced by the `define_indices!` declaration in
`src/extractor.rs`: the extension string → kind associations, in source
order. -/
def EXT_INDEX : List (String × Kind) :=
  [("html", Kind.HtmlNative),
   ("htm", Kind.HtmlNative),
   ("xhtml", Kind.HtmlNative),
   ("pdf", Kind.PdfNative),
   ("txt", Kind.PlainText),
   ("text", Kind.PlainText),
   ("md", Kind.PlainText),
   ("docx", Kind.Pandoc),
   ("doc", Kind.Pandoc),
   ("odt", Kind.Pandoc),
   ("rtf", Kind.Pandoc),
   ("epub", Kind.Pandoc),
   ("tex", Kind.Pandoc),
   ("latex", Kind.Pandoc),
   ("mp3", Kind.Whisper),
   ("wav", Kind.Whisper),
   ("mp4", Kind.Whisper),
   ("m4a", Kind.Whisper)]

/-! ## `src/file_type.rs` — extension derivation and MIME sniffing -/

/-- Rust's `Path::file_name` on a Unix-style path string: the last
non-empty, non-`"."` component, unless it is `".."`. -/
def rust_file_name (path : String) : Option String :=
  let comps := (split_on_char '/' path.data).filter
    (fun c => !(c.isEmpty) && !(c == ['.']))
  match comps.getLast? with
  | none => none
  | some c => if c = ['.', '.'] then none else some (String.mk c)

/-- Rust's `Path::extension`: the portion of the file name after the last
dot, `none` when the file name has no dot or its only dot is the leading
character (the stem before the last dot is then empty). -/
def rust_extension (path : String) : Option String :=
  match rust_file_name path with
  | none => none
  | some name =>
    let parts := split_on_char '.' name.data
    match parts with
    | [] => none
    | [_] => none
    | _ =>
      let stem := List.intercalate ['.'] parts.dropLast
      if stem.isEmpty then none else some (String.mk ((parts.getLast?).getD []))

/-- `file_type::file_extension_lowercase`: the lowercase file extension of
a path, when present. -/
def file_extension_lowercase (path : String) : Option Extension :=
  (rust_extension path).map (fun e => ⟨to_ascii_lowercase e⟩)

/-- `MIME_SNIFF_BYTES` from `src/file_type.rs`: number of bytes to read
for MIME sniffing. -/
def MIME_SNIFF_BYTES : Nat := 8 * 1024

/-- The ambient state the classification step interacts with: the bytes of
the file at the raw-content path (`none` when opening or reading it fails)
and the content-signature matcher `tree_magic_mini::from_u8`, an external
collaborator modelled as an arbitrary function of the bytes it is shown. -/
structure SniffEnv where
  file_bytes : Option (List Nat)
  sniff : List Nat → String

/-- `file_type::read_prefix`: read at most `MIME_SNIFF_BYTES` bytes from
the start of the file (`file.take(MIME_SNIFF_BYTES).read_to_end`). -/
def read_prefix_bytes (env : SniffEnv) : Except String (List Nat) :=
  match env.file_bytes with
  | none => Except.error "failed to read file prefix for MIME sniffing"
  | some bytes => Except.ok (bytes.take MIME_SNIFF_BYTES)

/-- `file_type::mime_type`: sniff the MIME type from the bounded file
prefix; reading failure is propagated as an error. -/
def mime_type (env : SniffEnv) : Except String Mime :=
  match read_prefix_bytes env with
  | Except.ok content => Except.ok ⟨env.sniff content⟩
  | Except.error e => Except.error e

/-- `file_type::match_kind_by_mime`: look the MIME up in `MIME_INDEX`,
defaulting to `Unsupported`. -/
def match_kind_by_mime (mime : Option Mime) : Kind :=
  (mime.bind (fun m => MIME_INDEX.lookup m.val)).getD Kind.Unsupported

/-- `file_type::match_kind_by_extension`: look the extension up in
`EXT_INDEX`, defaulting to `Unsupported`. -/
def match_kind_by_extension (extension : Option Extension) : Kind :=
  (extension.bind (fun e => EXT_INDEX.lookup e.val)).getD Kind.Unsupported

/-- Step 3 of `main` in `src/main.rs` ("Detect extractor kind"): with a
forced kind, return it with no hints and no file access; otherwise derive
the lowercase extension, sniff the MIME type (propagating a read failure
with `?`), and prefer the extension-table kind when it is not
`Unsupported`, falling back to the MIME-table kind.  The second component
records whether the input file was opened and read. -/
def detect_extractor_kind (forced : Option Kind) (path : String) (env : SniffEnv) :
    Except String (Kind × Option Extension × Option Mime) × Bool :=
  match forced with
  | some forced_extractor_kind => (Except.ok (forced_extractor_kind, none, none), false)
  | none =>
    let maybe_file_ext := file_extension_lowercase path
    match mime_type env with
    | Except.error e => (Except.error e, true)
    | Except.ok m =>
      let maybe_mime := some m
      let kind := match_kind_by_extension maybe_file_ext
      if kind ≠ Kind.Unsupported then
        (Except.ok (kind, maybe_file_ext, maybe_mime), true)
      else
        (Except.ok (match_kind_by_mime maybe_mime, maybe_file_ext, maybe_mime), true)

/-! ## `src/validate.rs` — validation helpers -/

/-- The filesystem facts the validators consult: `Path::exists` and
`Path::is_file`, modelled as arbitrary predicates on path strings. -/
structure Fs where
  path_exists : String → Bool
  is_file : String → Bool

/-- `validate::validate_file_not_exists`: error when no file exists at the
path or when the path is not a regular file. -/
def validate_file_not_exists (fs : Fs) (path : String) : Except String Unit :=
  if !(fs.path_exists path) then
    Except.error ("file does not exist at " ++ path)
  else if !(fs.is_file path) then
    Except.error ("path is not a file: " ++ path)
  else
    Except.ok ()

/-- `validate::validate_whisper_model_path_from_env`: the
`WHISPER_MODEL_PATH` variable (modelled as `envVar`, `none` when unset)
must be set, non-empty after trimming, and name an existing regular file;
on success the path is returned. -/
def validate_whisper_model_path_from_env (envVar : Option String) (fs : Fs) :
    Except String String :=
  match envVar with
  | none => Except.error "WHISPER_MODEL_PATH is not set"
  | some value =>
    if rust_trim value = "" then Except.error "WHISPER_MODEL_PATH is empty"
    else
      match validate_file_not_exists fs value with
      | Except.ok _ => Except.ok value
      | Except.error e =>
        Except.error ("invalid whisper model path at " ++ value ++ ": " ++ e)

/-- `validate::validate_command_executable` applied to the constant
command name `"pandoc"`: the name is valid UTF-8 and non-empty, so the
check reduces to `which::which` succeeding — modelled by the
`pandoc_on_path` flag. -/
def validate_command_executable_pandoc (pandoc_on_path : Bool) : Except String Unit :=
  if pandoc_on_path then Except.ok ()
  else Except.error "`pandoc` command is not executable or not in PATH"

/-! ## `src/extractor/html.rs` — the HtmlNative backend -/

/-- `HtmlExtractor::extract`, as a function of its collaborators' answers:
`html_input` is the UTF-8 decoding of the bytes read from the content path
(an error when reading fails or the bytes are not valid UTF-8), `init_ok`
models `Readability::new` succeeding, and `parse_result` models
`readability.parse()`: the outer `Option` is the parsed article, the inner
one its `text_content`.  On success the text content is written to the
staged output unchanged — the source performs no trim and no emptiness
check here. -/
def HtmlExtractor_extract (html_input : Except String String) (init_ok : Bool)
    (parse_result : Option (Option String)) (write_ok : Bool) :
    Except String String :=
  match html_input with
  | Except.error e => Except.error e
  | Except.ok _ =>
    if !init_ok then Except.error "failed to initialize readability parser"
    else
      match parse_result with
      | some (some text) =>
        if write_ok then Except.ok text
        else Except.error "failed to write extracted text content"
      | _ => Except.error "failed to extract text from HTML content"

/-! ## `src/extractor/pdf.rs` — the PdfNative backend -/

/-- `PdfExtractor::extract`, as a function of the `pdf_extract` crate's
answer: trim the extracted text, fail when the trimmed text is empty, and
otherwise write it to the staged output. -/
def PdfExtractor_extract (pdf_extract_result : Except String String)
    (write_ok : Bool) : Except String String :=
  match pdf_extract_result with
  | Except.error e => Except.error ("failed to extract text from PDF content: " ++ e)
  | Except.ok text =>
    let text := rust_trim text
    if text = "" then Except.error "failed to extract text from PDF content"
    else if write_ok then Except.ok text
    else Except.error "failed to write extracted text content"

/-! ## `src/extractor/pandoc.rs` — the Pandoc backend -/

/-- `PANDOC_INSTALLATION_HINT` from `src/extractor/pandoc.rs`. -/
def PANDOC_INSTALLATION_HINT : String :=
  "Please install pandoc by following https://pandoc.org/installing.html and ensure it is included in your PATH."

/-- `pandoc_input_format_with` from `src/extractor/pandoc.rs`: when an
extension is present, match it (returning `none` for an unmapped
extension); only when no extension is present, match the MIME; prepend
`--from=` to the chosen token. -/
def pandoc_input_format_with (mime : Option Mime) (extension : Option Extension) :
    Option String :=
  (match extension.map Extension.as_str with
   | some ext =>
     match ext with
     | "docx" => some "docx"
     | "doc" => some "doc"
     | "odt" => some "odt"
     | "rtf" => some "rtf"
     | "epub" => some "epub"
     | "md" => some "markdown"
     | "html" => some "html"
     | "htm" => some "html"
     | "xhtml" => some "html"
     | "txt" => some "plain"
     | "text" => some "plain"
     | "tex" => some "latex"
     | "latex" => some "latex"
     | _ => none
   | none =>
     match mime.map Mime.as_str with
     | none => none
     | some m =>
       match m with
       | "application/vnd.openxmlformats-officedocument.wordprocessingml.document" => some "docx"
       | "application/msword" => some "doc"
       | "application/vnd.oasis.opendocument.text" => some "odt"
       | "application/rtf" => some "rtf"
       | "text/rtf" => some "rtf"
       | "application/epub+zip" => some "epub"
       | "text/markdown" => some "markdown"
       | "text/html" => some "html"
       | "application/xhtml+xml" => some "html"
       | "text/plain" => some "plain"
       | "text/latex" => some "latex"
       | "application/x-tex" => some "latex"
       | "text/x-tex" => some "latex"
       | _ => none).map (fun format => "--from=" ++ format)

/-- The extension arm of `pandoc_input_format_with`, as a standalone
table, for stating its characterisation. -/
def pandoc_ext_token (ext : String) : Option String :=
  match ext with
  | "docx" => some "docx"
  | "doc" => some "doc"
  | "odt" => some "odt"
  | "rtf" => some "rtf"
  | "epub" => some "epub"
  | "md" => some "markdown"
  | "html" => some "html"
  | "htm" => some "html"
  | "xhtml" => some "html"
  | "txt" => some "plain"
  | "text" => some "plain"
  | "tex" => some "latex"
  | "latex" => some "latex"
  | _ => none

/-- The MIME arm of `pandoc_input_format_with`, as a standalone table, for
stating its characterisation. -/
def pandoc_mime_token (m : String) : Option String :=
  match m with
  | "application/vnd.openxmlformats-officedocument.wordprocessingml.document" => some "docx"
  | "application/msword" => some "doc"
  | "application/vnd.oasis.opendocument.text" => some "odt"
  | "application/rtf" => some "rtf"
  | "text/rtf" => some "rtf"
  | "application/epub+zip" => some "epub"
  | "text/markdown" => some "markdown"
  | "text/html" => some "html"
  | "application/xhtml+xml" => some "html"
  | "text/plain" => some "plain"
  | "text/latex" => some "latex"
  | "application/x-tex" => some "latex"
  | "text/x-tex" => some "latex"
  | _ => none

/-- Result of attempting to run the pandoc subprocess: spawning can fail
with `NotFound`, fail otherwise, or run to completion with an exit status,
captured stdout (modelled by its UTF-8 decoding, `none` when the bytes are
not valid UTF-8) and captured stderr. -/
inductive SpawnResult
  | notFound
  | otherError (msg : String)
  | ran (exit_success : Bool) (stdout_utf8 : Option String) (stderr : String)

/-- `PandocExtractor::extract`: derive the optional `--from` hint, check
the binary is on the path before spawning anything (absence is the
installation-hint error), then run the subprocess; a non-zero exit is a
failure whatever stdout holds, stdout must be valid UTF-8, is trimmed, and
an empty trimmed result is a failure.  The second component records
whether a subprocess spawn was attempted. -/
def PandocExtractor_extract (mime : Option Mime) (extension : Option Extension)
    (pandoc_on_path : Bool) (spawn : SpawnResult) (write_ok : Bool) :
    Except String String × Bool :=
  let _maybe_from := pandoc_input_format_with mime extension
  match validate_command_executable_pandoc pandoc_on_path with
  | Except.error _ => (Except.error PANDOC_INSTALLATION_HINT, false)
  | Except.ok _ =>
    match spawn with
    | SpawnResult.notFound =>
      (Except.error "pandoc is not installed or not in PATH", true)
    | SpawnResult.otherError e =>
      (Except.error ("failed to run pandoc: " ++ e), true)
    | SpawnResult.ran exit_success stdout_utf8 stderr =>
      if !exit_success then (Except.error ("pandoc failed: " ++ stderr), true)
      else
        match stdout_utf8 with
        | none => (Except.error "pandoc output is not valid UTF-8", true)
        | some s =>
          let text := rust_trim s
          if text = "" then (Except.error "pandoc produced empty output", true)
          else if write_ok then (Except.ok text, true)
          else (Except.error "failed to write extracted text content", true)

/-! ## `src/extractor/whisper.rs` — the Whisper backend -/

/-- `WhisperExtractor::extract`, as a function of its collaborators'
answers: the model path is resolved and validated from the environment
first; only then is audio decoding attempted (`decode_result` models
`decode_audio_samples`, which itself rejects empty decoded audio), then
transcription (`transcribe_result` models `transcribe_audio`); the
transcript is trimmed and an empty trimmed result is a failure.  The
second component records whether audio decoding was attempted. -/
def WhisperExtractor_extract (envVar : Option String) (fs : Fs)
    (decode_result : Except String (List Nat))
    (transcribe_result : Except String String) (write_ok : Bool) :
    Except String String × Bool :=
  match validate_whisper_model_path_from_env envVar fs with
  | Except.error e => (Except.error e, false)
  | Except.ok _valid_model_path =>
    match decode_result with
    | Except.error e => (Except.error e, true)
    | Except.ok _samples =>
      match transcribe_result with
      | Except.error e => (Except.error e, true)
      | Except.ok t =>
        let text := rust_trim t
        if text = "" then (Except.error "whisper produced empty output", true)
        else if write_ok then (Except.ok text, true)
        else (Except.error "failed to write extracted text content", true)

/-! ## `src/main.rs` — the orchestrator's fetch and extract steps -/

/-- The `fetch` function of `src/main.rs`: the `File` scheme returns the
input string unchanged without touching the working directory; every other
scheme first creates the working directory (`create_dir_all`, whose
success is modelled by `mkdir_ok`), then `Http` delegates to the HTTP
fetcher (its answer modelled by `http_fetch`) and any other scheme is the
terminal "unsupported input scheme" error.  The second component records
whether `create_dir_all` was invoked on the working directory. -/
def main_fetch (uri : String) (scheme : InputScheme) (mkdir_ok : Bool)
    (http_fetch : Except String String) : Except String String × Bool :=
  if scheme = InputScheme.File then (Except.ok uri, false)
  else if !mkdir_ok then (Except.error "failed to create workdir", true)
  else
    match scheme with
    | InputScheme.Http => (http_fetch, true)
    | _ => (Except.error "unsupported input scheme", true)

/-- The `extract` function of `src/main.rs`: the `PlainText` kind returns
the content path unchanged without touching the working directory; every
other kind first creates the working directory, then dispatches to the
matching backend (its answer modelled by `dispatch`), with `Unsupported` a
terminal failure naming the detection hints.  The second component records
whether `create_dir_all` was invoked on the working directory. -/
def main_extract (content_path : String) (extractor_kind : Kind)
    (mkdir_ok : Bool) (dispatch : Kind → Except String String) :
    Except String String × Bool :=
  if extractor_kind = Kind.PlainText then (Except.ok content_path, false)
  else if !mkdir_ok then (Except.error "failed to create workdir", true)
  else
    match extractor_kind with
    | Kind.HtmlNative => (dispatch Kind.HtmlNative, true)
    | Kind.PdfNative => (dispatch Kind.PdfNative, true)
    | Kind.Pandoc => (dispatch Kind.Pandoc, true)
    | Kind.Whisper => (dispatch Kind.Whisper, true)
    | _ => (Except.error "unsupported extractor kind for detected ext/mime", true)

/-! ## Helper lemmas -/

theorem isPrefixOf_false_of_head_ne {a b : Char} {as bs : List Char} (h : a ≠ b) :
    (a :: as).isPrefixOf (b :: bs) = false := by
  simp [List.isPrefixOf, h]

theorem splitOnceChars_cons_of_not (sep : List Char) (c : Char) (cs : List Char)
    (h : sep.isPrefixOf (c :: cs) = false) :
    splitOnceChars sep (c :: cs) =
      match splitOnceChars sep cs with
      | some (l, r) => some (c :: l, r)
      | none => none := by
  simp [splitOnceChars, h]

theorem splitOnceChars_sep_start (xs : List Char) :
    splitOnceChars [':', '/', '/'] (':' :: '/' :: '/' :: xs) = some ([], xs) := by
  have h : ([':', '/', '/'] : List Char).isPrefixOf (':' :: '/' :: '/' :: xs) = true := by
    simp [List.isPrefixOf]
  simp [splitOnceChars, h]

/-- Scheme detection on any input that literally starts with `file://`
yields the `File` scheme: the leading `file://` is the first occurrence of
`://` and its scheme part lowercases to `file`. -/
theorem detect_file_url (rest : String) : detect ("file://" ++ rest) = InputScheme.File := by
  have hdata : ("file://" ++ rest).data
      = 'f' :: 'i' :: 'l' :: 'e' :: ':' :: '/' :: '/' :: rest.data := by
    have h := String.data_append "file://" rest
    simp at h
    simp [h]
  have hsplit : splitOnceChars [':', '/', '/'] ("file://" ++ rest).data =
      some (['f', 'i', 'l', 'e'], rest.data) := by
    rw [hdata]
    rw [splitOnceChars_cons_of_not _ _ _ (isPrefixOf_false_of_head_ne (by decide))]
    rw [splitOnceChars_cons_of_not _ _ _ (isPrefixOf_false_of_head_ne (by decide))]
    rw [splitOnceChars_cons_of_not _ _ _ (isPrefixOf_false_of_head_ne (by decide))]
    rw [splitOnceChars_cons_of_not _ _ _ (isPrefixOf_false_of_head_ne (by decide))]
    rw [splitOnceChars_sep_start]
  have hsep : ("://" : String).data = [':', '/', '/'] := rfl
  unfold detect split_once
  rw [hsep, hsplit]
  rfl

theorem trim_chars_eq_rdrop (l : List Char) :
    trim_chars l = List.rdropWhile rust_is_whitespace (List.dropWhile rust_is_whitespace l) :=
  rfl

theorem dropWhile_rdropWhile_dropWhile (p : Char → Bool) (l : List Char) :
    List.dropWhile p (List.rdropWhile p (List.dropWhile p l)) =
      List.rdropWhile p (List.dropWhile p l) := by
  rw [List.dropWhile_eq_self_iff]
  intro hl
  have hpre : List.rdropWhile p (List.dropWhile p l) <+: List.dropWhile p l :=
    List.rdropWhile_prefix p _
  have hlen : 0 < (List.dropWhile p l).length := lt_of_lt_of_le hl hpre.length_le
  have hget := hpre.getElem hl
  rw [List.get_eq_getElem, hget]
  have h0 := List.dropWhile_get_zero_not p l hlen
  rwa [List.get_eq_getElem] at h0

theorem trim_chars_idempotent (l : List Char) :
    trim_chars (trim_chars l) = trim_chars l := by
  rw [trim_chars_eq_rdrop, trim_chars_eq_rdrop, dropWhile_rdropWhile_dropWhile,
    List.rdropWhile_idempotent]

/-- Trimming is idempotent: the output of `rust_trim` is unchanged by a
second trim. -/
theorem rust_trim_idempotent (s : String) : rust_trim (rust_trim s) = rust_trim s := by
  show String.mk (trim_chars (trim_chars s.data)) = String.mk (trim_chars s.data)
  rw [trim_chars_idempotent]

/-! ## Claim theorems -/

/-- C1, counterexample: the claim "the file's content is never read when
the extension maps" is false on the code.  With no forced kind, the
classification step of `main` sniffs the MIME type before the extension
lookup: for the path `x.html` (whose extension maps to `HtmlNative`) an
unreadable file makes classification fail outright, and a readable file is
read (flag `true`) even though the extension decides the kind. -/
theorem classification_reads_file_despite_extension_match_cex :
    match_kind_by_extension (file_extension_lowercase "x.html") = Kind.HtmlNative ∧
    detect_extractor_kind none "x.html" ⟨none, fun _ => "application/octet-stream"⟩ =
      (Except.error "failed to read file prefix for MIME sniffing", true) ∧
    detect_extractor_kind none "x.html" ⟨some [60], fun _ => "text/weird"⟩ =
      (Except.ok (Kind.HtmlNative, some ⟨"html"⟩, some ⟨"text/weird"⟩), true) :=
  ⟨rfl, rfl, rfl⟩

/-- C1, amended: with no forced kind and a readable file whose lowercase
extension maps in the extension table to a kind other than `Unsupported`,
classification returns that kind — but only after unconditionally opening
the file and sniffing the MIME type from its bounded prefix, so the file
content is read (and an unreadable file fails classification even when the
extension maps). -/
theorem extension_match_kind_after_mandatory_sniff (path : String) (env : SniffEnv)
    (bytes : List Nat) (k : Kind)
    (hread : env.file_bytes = some bytes)
    (hk : match_kind_by_extension (file_extension_lowercase path) = k)
    (hne : k ≠ Kind.Unsupported) :
    detect_extractor_kind none path env =
      (Except.ok (k, file_extension_lowercase path,
        some ⟨env.sniff (bytes.take MIME_SNIFF_BYTES)⟩), true) := by
  simp only [detect_extractor_kind, mime_type, read_prefix_bytes, hread, hk]
  simp [hne]

/-- C1, witness: the amended theorem applied to the path `x.html` with a
one-byte readable file whose sniffed MIME is `text/html`. -/
theorem extension_match_kind_after_mandatory_sniff_witness :
    detect_extractor_kind none "x.html" ⟨some [104], fun _ => "text/html"⟩ =
      (Except.ok (Kind.HtmlNative, some ⟨"html"⟩, some ⟨"text/html"⟩), true) :=
  extension_match_kind_after_mandatory_sniff "x.html" ⟨some [104], fun _ => "text/html"⟩
    [104] Kind.HtmlNative rfl rfl (by decide)

/-- C2, counterexample: the claim "every real backend rejects
empty-after-trim output" is false for the HtmlNative backend.  When the
readability collaborator yields an article whose text content is the
single space, `HtmlExtractor_extract` succeeds with that single space as
the artifact, which is empty after trimming — the source performs no trim
and no emptiness check on the HTML path. -/
theorem html_backend_empty_success_cex :
    HtmlExtractor_extract (Except.ok "<html><body> </body></html>") true (some (some " ")) true
        = Except.ok " " ∧
      rust_trim " " = "" :=
  ⟨rfl, rfl⟩

/-- C2, amended: the PdfNative, Pandoc and Whisper backends reject
empty-after-trim output — any successful result is already trimmed and
non-empty (hence non-empty after trimming) — while the HtmlNative backend
returns whatever text content the readability collaborator produced,
unchanged and unchecked. -/
theorem backends_reject_empty_after_trim_except_html :
    (∀ (r : Except String String) (w : Bool) (t : String),
      PdfExtractor_extract r w = Except.ok t → rust_trim t = t ∧ t ≠ "") ∧
    (∀ (mime : Option Mime) (ext : Option Extension) (p : Bool) (s : SpawnResult)
        (w : Bool) (t : String),
      (PandocExtractor_extract mime ext p s w).1 = Except.ok t → rust_trim t = t ∧ t ≠ "") ∧
    (∀ (ev : Option String) (fs : Fs) (d : Except String (List Nat))
        (tr : Except String String) (w : Bool) (t : String),
      (WhisperExtractor_extract ev fs d tr w).1 = Except.ok t → rust_trim t = t ∧ t ≠ "") ∧
    (∀ (input : Except String String) (ini : Bool) (pr : Option (Option String)) (w : Bool)
        (t : String),
      HtmlExtractor_extract input ini pr w = Except.ok t → pr = some (some t)) := by
  refine ⟨?_, ?_, ?_, ?_⟩
  · intro r w t h
    match r with
    | Except.error e => simp [PdfExtractor_extract] at h
    | Except.ok text =>
      by_cases he : rust_trim text = ""
      · simp [PdfExtractor_extract, he] at h
      · cases w with
        | false => simp [PdfExtractor_extract, he] at h
        | true =>
          simp [PdfExtractor_extract, he] at h
          subst h
          exact ⟨rust_trim_idempotent text, he⟩
  · intro mime ext p s w t h
    cases p with
    | false => simp [PandocExtractor_extract, validate_command_executable_pandoc] at h
    | true =>
      match s with
      | SpawnResult.notFound =>
        simp [PandocExtractor_extract, validate_command_executable_pandoc] at h
      | SpawnResult.otherError e =>
        simp [PandocExtractor_extract, validate_command_executable_pandoc] at h
      | SpawnResult.ran ok out err =>
        cases ok with
        | false => simp [PandocExtractor_extract, validate_command_executable_pandoc] at h
        | true =>
          match out with
          | none => simp [PandocExtractor_extract, validate_command_executable_pandoc] at h
          | some sout =>
            by_cases he : rust_trim sout = ""
            · simp [PandocExtractor_extract, validate_command_executable_pandoc, he] at h
            · cases w with
              | false =>
                simp [PandocExtractor_extract, validate_command_executable_pandoc, he] at h
              | true =>
                simp [PandocExtractor_extract, validate_command_executable_pandoc, he] at h
                subst h
                exact ⟨rust_trim_idempotent sout, he⟩
  · intro ev fs d tr w t h
    cases hv : validate_whisper_model_path_from_env ev fs with
    | error e => simp [WhisperExtractor_extract, hv] at h
    | ok v =>
      match d with
      | Except.error e => simp [WhisperExtractor_extract, hv] at h
      | Except.ok samples =>
        match tr with
        | Except.error e => simp [WhisperExtractor_extract, hv] at h
        | Except.ok tt =>
          by_cases he : rust_trim tt = ""
          · simp [WhisperExtractor_extract, hv, he] at h
          · cases w with
            | false => simp [WhisperExtractor_extract, hv, he] at h
            | true =>
              simp [WhisperExtractor_extract, hv, he] at h
              subst h
              exact ⟨rust_trim_idempotent tt, he⟩
  · intro input ini pr w t h
    match input with
    | Except.error e => simp [HtmlExtractor_extract] at h
    | Except.ok html =>
      cases ini with
      | false => simp [HtmlExtractor_extract] at h
      | true =>
        match pr with
        | none => simp [HtmlExtractor_extract] at h
        | some none => simp [HtmlExtractor_extract] at h
        | some (some text) =>
          cases w with
          | false => simp [HtmlExtractor_extract] at h
          | true =>
            simp [HtmlExtractor_extract] at h
            subst h
            rfl

/-- C2, witness: the amended theorem applied to the PdfNative backend on
the raw text ` hi `, whose successful artifact is the trimmed non-empty
`hi`. -/
theorem backends_reject_empty_after_trim_except_html_witness :
    rust_trim "hi" = "hi" ∧ "hi" ≠ "" :=
  backends_reject_empty_after_trim_except_html.1 (Except.ok " hi ") true "hi" rfl

/-- C3: scheme detection is the pure total function the specification
describes — split on the first `://`, lowercase the left part, map
`http`/`https` to Http, `file` to File, anything else to Unsupported, and
treat an input with no `://` as File. -/
theorem scheme_detect_matches_spec (input : String) : detect input = detect_spec input := by
  unfold detect detect_spec
  cases h : split_once input "://" with
  | none => rfl
  | some p =>
    obtain ⟨left, right⟩ := p
    by_cases h1 : to_ascii_lowercase left = "http"
    · simp [h1]
    · by_cases h2 : to_ascii_lowercase left = "https"
      · simp [h2]
      · by_cases h3 : to_ascii_lowercase left = "file"
        · simp [h3]
        · simp [h1, h2, h3]

/-- C4, counterexample: the claim "for every pair where the extension is
unmapped but the MIME is mapped, the MIME-derived hint is used" is false.
With the unmapped extension `xyz` and the mapped MIME
`application/msword` the hint is `none`, although the same MIME alone
(with no extension) yields `--from=doc`. -/
theorem pandoc_hint_ignores_mime_when_extension_present_cex :
    pandoc_input_format_with (some ⟨"application/msword"⟩) (some ⟨"xyz"⟩) = none ∧
      pandoc_input_format_with (some ⟨"application/msword"⟩) none = some "--from=doc" :=
  ⟨rfl, rfl⟩

/-- C4, amended: the Pandoc hint derivation tries the extension table
exactly when an extension is present — an unmapped extension yields no
hint, and the MIME table is never consulted in that case; the MIME table
is consulted only when no extension is present; when neither mapping
applies the hint is `none` (no format flag). -/
theorem pandoc_input_format_characterization (mime : Option Mime)
    (extension : Option Extension) :
    pandoc_input_format_with mime extension =
      (match extension with
       | some e => pandoc_ext_token e.as_str
       | none => (mime.map Mime.as_str).bind pandoc_mime_token).map
        (fun format => "--from=" ++ format) := by
  cases extension with
  | some e => rfl
  | none =>
    cases mime with
    | some m => rfl
    | none => rfl

/-- C5: the Pandoc backend verifies that the binary is on the execution
path before any subprocess is spawned.  When the binary is absent the
extraction fails with exactly the installation-hint error and the spawn
flag stays `false`; conversely the spawn flag can only be `true` when the
availability check passed. -/
theorem pandoc_availability_checked_before_spawn (mime : Option Mime)
    (extension : Option Extension) (pandoc_on_path : Bool) (spawn : SpawnResult)
    (write_ok : Bool) :
    (pandoc_on_path = false →
      PandocExtractor_extract mime extension pandoc_on_path spawn write_ok =
        (Except.error PANDOC_INSTALLATION_HINT, false)) ∧
    ((PandocExtractor_extract mime extension pandoc_on_path spawn write_ok).2 = true →
      pandoc_on_path = true) := by
  cases pandoc_on_path with
  | false =>
    refine ⟨fun _ => rfl, ?_⟩
    intro h
    exact absurd h (by simp [PandocExtractor_extract, validate_command_executable_pandoc])
  | true => exact ⟨fun h => absurd h (by simp), fun _ => rfl⟩

/-- C5, witness: the theorem applied with the binary absent — the result
is the installation-hint failure with no spawn attempted. -/
theorem pandoc_availability_checked_before_spawn_witness :
    PandocExtractor_extract none none false SpawnResult.notFound true =
      (Except.error PANDOC_INSTALLATION_HINT, false) :=
  (pandoc_availability_checked_before_spawn none none false SpawnResult.notFound true).1 rfl

/-- C6: the Whisper model path is resolved from the environment and
validated eagerly — validation succeeds exactly when the variable is set,
non-empty after trimming, and names an existing regular file; any
validation error makes extraction fail with that error and with the
decode flag still `false`; and decoding can only have been attempted when
validation succeeded. -/
theorem whisper_model_validated_before_decoding (envVar : Option String) (fs : Fs)
    (decode_result : Except String (List Nat)) (transcribe_result : Except String String)
    (write_ok : Bool) :
    ((∃ v, validate_whisper_model_path_from_env envVar fs = Except.ok v) ↔
      (∃ v, envVar = some v ∧ rust_trim v ≠ "" ∧ fs.path_exists v = true ∧
        fs.is_file v = true)) ∧
    (∀ e, validate_whisper_model_path_from_env envVar fs = Except.error e →
      WhisperExtractor_extract envVar fs decode_result transcribe_result write_ok =
        (Except.error e, false)) ∧
    ((WhisperExtractor_extract envVar fs decode_result transcribe_result write_ok).2 = true →
      ∃ v, validate_whisper_model_path_from_env envVar fs = Except.ok v) := by
  refine ⟨?_, ?_, ?_⟩
  · constructor
    · rintro ⟨v, hv⟩
      match envVar with
      | none => simp [validate_whisper_model_path_from_env] at hv
      | some value =>
        by_cases he : rust_trim value = ""
        · simp [validate_whisper_model_path_from_env, he] at hv
        · refine ⟨value, rfl, he, ?_, ?_⟩
          all_goals
            by_cases hex : fs.path_exists value = true
          all_goals by_cases hf : fs.is_file value = true
          all_goals
            simp [validate_whisper_model_path_from_env, validate_file_not_exists, he,
              hex, hf] at hv
          all_goals simp_all
    · rintro ⟨v, hv, he, hex, hf⟩
      subst hv
      exact ⟨v, by simp [validate_whisper_model_path_from_env, validate_file_not_exists,
        he, hex, hf]⟩
  · intro e hv
    simp [WhisperExtractor_extract, hv]
  · intro h
    cases hv : validate_whisper_model_path_from_env envVar fs with
    | error e => simp [WhisperExtractor_extract, hv] at h
    | ok v => exact ⟨v, rfl⟩

/-- C6, witness: the theorem applied with the environment variable unset —
extraction fails with the validation error and decoding was never
attempted. -/
theorem whisper_model_validated_before_decoding_witness :
    WhisperExtractor_extract none ⟨fun _ => false, fun _ => false⟩
        (Except.ok [1]) (Except.ok "hello") true =
      (Except.error "WHISPER_MODEL_PATH is not set", false) :=
  (whisper_model_validated_before_decoding none ⟨fun _ => false, fun _ => false⟩
    (Except.ok [1]) (Except.ok "hello") true).2.1 "WHISPER_MODEL_PATH is not set" rfl

/-- C7: with no forced kind, a readable file and an extension that is
absent or unmapped, classification returns exactly the MIME-table kind of
the MIME sniffed from the at-most-8-KiB prefix of the file (defaulting to
`Unsupported` when the MIME has no entry), and the outcome is invariant
under any change of the file beyond its first 8192 bytes. -/
theorem mime_fallback_bounded_sniff (path : String) (env : SniffEnv) (bytes : List Nat)
    (hread : env.file_bytes = some bytes)
    (hext : match_kind_by_extension (file_extension_lowercase path) = Kind.Unsupported) :
    detect_extractor_kind none path env =
      (Except.ok
        ((MIME_INDEX.lookup (env.sniff (bytes.take MIME_SNIFF_BYTES))).getD Kind.Unsupported,
          file_extension_lowercase path,
          some ⟨env.sniff (bytes.take MIME_SNIFF_BYTES)⟩), true) ∧
    (∀ (env2 : SniffEnv) (bytes2 : List Nat), env2.file_bytes = some bytes2 →
      env2.sniff = env.sniff → bytes2.take MIME_SNIFF_BYTES = bytes.take MIME_SNIFF_BYTES →
      detect_extractor_kind none path env2 = detect_extractor_kind none path env) := by
  constructor
  · simp [detect_extractor_kind, mime_type, read_prefix_bytes, hread, hext, match_kind_by_mime]
  · intro env2 bytes2 hread2 hsniff htake
    have hm : mime_type env2 = mime_type env := by
      simp [mime_type, read_prefix_bytes, hread, hread2, hsniff, htake]
    simp only [detect_extractor_kind, hm]

/-- C7, witness: the theorem applied to the unmapped extension `bin` with
a sniffer answering `application/pdf` — classification falls back to the
MIME table and yields `PdfNative`. -/
theorem mime_fallback_bounded_sniff_witness :
    detect_extractor_kind none "data.bin" ⟨some [1, 2, 3], fun _ => "application/pdf"⟩ =
      (Except.ok (Kind.PdfNative, some ⟨"bin"⟩, some ⟨"application/pdf"⟩), true) :=
  (mime_fallback_bounded_sniff "data.bin" ⟨some [1, 2, 3], fun _ => "application/pdf"⟩
    [1, 2, 3] rfl rfl).1

/-- C8: for the PlainText kind the extraction stage of the orchestrator
creates no working directory (the creation flag is `false`, whatever the
would-be outcome of directory creation and whatever any backend would
answer) and returns the raw content path itself unchanged. -/
theorem plaintext_short_circuits_extract (content_path : String) (mkdir_ok : Bool)
    (dispatch : Kind → Except String String) :
    main_extract content_path Kind.PlainText mkdir_ok dispatch =
      (Except.ok content_path, false) := rfl

/-- C9: for an input with the Unsupported scheme the fetch stage first
creates the working directory and only then returns the terminal
"unsupported input scheme" error — the run fails with the directory
already created (flag `true`), and when directory creation itself fails
that earlier error is returned instead, showing the creation happens
first. -/
theorem unsupported_scheme_workdir_created_before_error (uri : String)
    (http_fetch : Except String String) :
    main_fetch uri InputScheme.Unsupported true http_fetch =
        (Except.error "unsupported input scheme", true) ∧
      main_fetch uri InputScheme.Unsupported false http_fetch =
        (Except.error "failed to create workdir", true) :=
  ⟨rfl, rfl⟩

/-- C10: for every input whose detected scheme is File the fetch stage
returns the entire input string unchanged with no working directory
created, and for every input literally of the form `file://...` the
detected scheme is File and the returned raw-content path is that same
string, `file://` prefix included. -/
theorem file_scheme_fetch_returns_input_unchanged :
    (∀ (uri : String) (mkdir_ok : Bool) (http_fetch : Except String String),
      detect uri = InputScheme.File →
        main_fetch uri (detect uri) mkdir_ok http_fetch = (Except.ok uri, false)) ∧
    (∀ (rest : String) (mkdir_ok : Bool) (http_fetch : Except String String),
      detect ("file://" ++ rest) = InputScheme.File ∧
        main_fetch ("file://" ++ rest) (detect ("file://" ++ rest)) mkdir_ok http_fetch =
          (Except.ok ("file://" ++ rest), false)) := by
  constructor
  · intro uri mkdir_ok http_fetch h
    rw [h]
    rfl
  · intro rest mkdir_ok http_fetch
    refine ⟨detect_file_url rest, ?_⟩
    rw [detect_file_url rest]
    rfl

/-- C10, witness: the theorem applied to the input `file:///tmp/a.txt`,
which is returned unchanged, prefix included, with no working directory
created. -/
theorem file_scheme_fetch_returns_input_unchanged_witness :
    main_fetch "file:///tmp/a.txt" (detect "file:///tmp/a.txt") true (Except.ok "x") =
      (Except.ok "file:///tmp/a.txt", false) :=
  file_scheme_fetch_returns_input_unchanged.1 "file:///tmp/a.txt" true (Except.ok "x") rfl

end Nosy
